import Mathlib

/-!
Verification of the signal-conditioning pipeline (`src/js/handTracker.js`) and
the formation control engine (`src/js/scene.js`) of the flySword repository.

The JavaScript is embedded shallowly:
* JS numbers become `ℚ` for the tracker pipeline (all its arithmetic is
  field arithmetic and comparisons, so the embedding is exact up to float
  rounding) and `ℝ` for the formation engine, whose target formulas use
  transcendental functions (`sin`, `cos`, `acos`, `sqrt`, `π`).
* `Math.PI` in `OneEuroFilter.alpha` is modelled by a parameter `piQ : ℚ`;
  every theorem that needs it assumes only `0 < piQ`, which the real
  constant satisfies, so the proved statements subsume the actual value.
* `Math.hypot` appears in the source only in comparisons of the shape
  `hypot dx dy > hypot dx' dy' * ratio` with `ratio > 0`; since `sqrt` is
  monotone and both sides are nonnegative this is equivalent to comparing
  squared distances against the squared ratio, which is how the comparison
  is embedded (exactly, in `ℚ`).
* Mutation of `this` becomes explicit state passing; a JS property access
  that would throw (out-of-range landmark index, i.e. `undefined.x`) makes
  the embedded function return `none`.
-/

namespace FlySword

/-- The gesture labels of the closed enumeration used by the tracker and the
formation engine (`'IDLE' / 'STREAM' / 'SPHERE' / 'SHIELD'` in the source). -/
inductive Gesture
  | IDLE
  | STREAM
  | SPHERE
  | SHIELD
deriving DecidableEq

/-- One MediaPipe hand landmark.  Only the `x` and `y` fields are read by the
tracker (`z` is never used in `handTracker.js`), so only they are modelled. -/
structure Landmark where
  x : ℚ
  y : ℚ
deriving DecidableEq, Inhabited

/-- State of `LowPassFilter` (handTracker.js lines 175-193):
`alpha`, `initialized`, `s`. -/
structure LowPassFilter where
  alpha : ℚ
  initialized : Bool
  s : ℚ
deriving DecidableEq

/-- `LowPassFilter.filter(x)` (lines 182-190).  Returns the filter output and
the updated filter state: on the first call it seeds `s` with the raw value
and returns it; afterwards `s = alpha*x + (1-alpha)*s`. -/
def LowPassFilter.filter (f : LowPassFilter) (x : ℚ) : ℚ × LowPassFilter :=
  if f.initialized then
    let s := f.alpha * x + (1 - f.alpha) * f.s
    (s, { f with s := s })
  else
    (x, { f with initialized := true, s := x })

/-- State of `OneEuroFilter` (lines 195-231). -/
structure OneEuroFilter where
  freq : ℚ
  minCutoff : ℚ
  beta : ℚ
  dCutoff : ℚ
  x : LowPassFilter
  dx : LowPassFilter
  lastTime : Option ℚ
deriving DecidableEq

/-- `OneEuroFilter.alpha(cutoff)` (lines 208-212):
`te = 1/freq; tau = 1/(2*PI*cutoff); 1/(1 + tau/te)`.
`piQ` stands for the constant `Math.PI`. -/
def alphaOf (piQ freq cutoff : ℚ) : ℚ :=
  let te := 1 / freq
  let tau := 1 / (2 * piQ * cutoff)
  1 / (1 + tau / te)

/-- The `OneEuroFilter` constructor (lines 196-206): both low-pass stages
start uninitialized, with `alpha` precomputed from `minCutoff` resp.
`dCutoff` at the nominal frequency. -/
def mkOneEuro (piQ freq minCutoff beta dCutoff : ℚ) : OneEuroFilter :=
  { freq := freq, minCutoff := minCutoff, beta := beta, dCutoff := dCutoff,
    x := { alpha := alphaOf piQ freq minCutoff, initialized := false, s := 0 },
    dx := { alpha := alphaOf piQ freq dCutoff, initialized := false, s := 0 },
    lastTime := none }

/-- `OneEuroFilter.filter(value, timestampMs)` (lines 214-230).  The caller
always passes a number for `timestampMs` (it is `performance.now()`), so the
JS guard `timestampMs != null` is always true and only `lastTime != null`
is modelled.  `dt = (t - t0)/1000`; the frequency is re-estimated only when
`dt > 0`. -/
def OneEuroFilter.filter (piQ : ℚ) (f : OneEuroFilter) (value t : ℚ) :
    ℚ × OneEuroFilter :=
  let f1 :=
    match f.lastTime with
    | some t0 =>
        let dt := (t - t0) / 1000
        if 0 < dt then { f with freq := 1 / dt } else f
    | none => f
  let f2 := { f1 with lastTime := some t }
  let prev := if f2.x.initialized then f2.x.s else value
  let dValue := (value - prev) * f2.freq
  let dx1 := { f2.dx with alpha := alphaOf piQ f2.freq f2.dCutoff }
  let ed := LowPassFilter.filter dx1 dValue
  let cutoff := f2.minCutoff + f2.beta * |ed.1|
  let x1 := { f2.x with alpha := alphaOf piQ f2.freq cutoff }
  let ox := LowPassFilter.filter x1 value
  (ox.1, { f2 with x := ox.2, dx := ed.2 })

/-- The published tracking state `this.state` (lines 6-12). -/
structure TrackState where
  detected : Bool
  x : ℚ
  y : ℚ
  gesture : Gesture
  confidence : ℚ
deriving DecidableEq

/-- The mutable fields of `HandTracker` (constructor, lines 2-29).
`lastT` mirrors `this._lastT`, which the source initializes and never
reads or writes again. -/
structure Tracker where
  state : TrackState
  filterX : OneEuroFilter
  filterY : OneEuroFilter
  lastT : Option ℚ
  lostFrames : ℕ
  gestureStable : Gesture
  gestureCandidate : Gesture
  gestureCount : ℕ
  gestureStableFrames : ℕ
deriving DecidableEq

/-- The `HandTracker` constructor state: filters
`new OneEuroFilter(30, 1.2, 0.08, 1.0)` on each axis, zeroed state,
debounce threshold `gestureStableFrames = 3`. -/
def initTracker (piQ : ℚ) : Tracker :=
  { state := { detected := false, x := 0, y := 0,
               gesture := Gesture.IDLE, confidence := 0 },
    filterX := mkOneEuro piQ 30 1.2 0.08 1,
    filterY := mkOneEuro piQ 30 1.2 0.08 1,
    lastT := none,
    lostFrames := 0,
    gestureStable := Gesture.IDLE,
    gestureCandidate := Gesture.IDLE,
    gestureCount := 0,
    gestureStableFrames := 3 }

/-- `stabilizeGesture(nextGesture)` (lines 123-136): commit hysteresis.
Returns the value `return this._gestureStable` produces together with the
updated tracker. -/
def Tracker.stabilizeGesture (tr : Tracker) (next : Gesture) : Gesture × Tracker :=
  let cc : Gesture × ℕ :=
    if next = tr.gestureCandidate then (tr.gestureCandidate, tr.gestureCount + 1)
    else (next, 1)
  let stable := if tr.gestureStableFrames ≤ cc.2 then next else tr.gestureStable
  (stable,
   { tr with gestureCandidate := cc.1, gestureCount := cc.2,
             gestureStable := stable })

/-- `distToWrist(idx)` (lines 140-144) squared: `Math.hypot(dx, dy)^2`.
`none` when index `idx` (or the wrist, index 0) is out of range, which in JS
would throw on `lm[idx].x`. -/
def distSqToWrist (lm : List Landmark) (idx : ℕ) : Option ℚ :=
  match lm.get? idx, lm.get? 0 with
  | some p, some w => some ((p.x - w.x) ^ 2 + (p.y - w.y) ^ 2)
  | _, _ => none

/-- `isFingerOpen(tip, mcp, ratio)` (line 147):
`distToWrist(tip) > distToWrist(mcp) * ratio`.  Embedded on squared
distances with the ratio squared, which is equivalent because both sides of
the source comparison are nonnegative and `sqrt` is strictly monotone. -/
def isFingerOpen (lm : List Landmark) (tip mcp : ℕ) (ratio : ℚ) : Option Bool :=
  match distSqToWrist lm tip, distSqToWrist lm mcp with
  | some a, some b => some (decide (b * ratio ^ 2 < a))
  | _, _ => none

/-- `detectGesture(lm)` (lines 138-168).  The five finger predicates are all
evaluated before the decision cascade, as in the source; `none` records an
out-of-range landmark access. -/
def detectGesture (lm : List Landmark) : Option Gesture :=
  match isFingerOpen lm 8 5 1.10, isFingerOpen lm 12 9 1.12,
        isFingerOpen lm 16 13 1.12, isFingerOpen lm 20 17 1.12,
        isFingerOpen lm 4 2 1.08 with
  | some indexOpen, some middleOpen, some ringOpen, some pinkyOpen,
    some thumbOpen =>
      if indexOpen && !middleOpen && !ringOpen && !pinkyOpen then
        some Gesture.STREAM
      else if !indexOpen && !middleOpen && !ringOpen && !pinkyOpen
              && !thumbOpen then
        some Gesture.SPHERE
      else if indexOpen && middleOpen && ringOpen && pinkyOpen then
        some Gesture.SHIELD
      else
        some Gesture.STREAM
  | _, _, _, _, _ => none

/-- The input delivered by MediaPipe to `processResults`:
`multiHandLandmarks` (absent modelled as `[]`) and the optional
`multiHandedness[0].score`. -/
structure HandResults where
  multiHandLandmarks : List (List Landmark)
  score : Option ℚ
deriving DecidableEq

/-- The `else` branch of `processResults` (lines 105-118): increment the
loss counter; once it reaches 3, reset the stabilizer to `IDLE` and force
`detected = false`, `gesture = IDLE`, `confidence = 0` on the published
state.  Note the source leaves `state.x` and `state.y` untouched in both
cases. -/
def noHandStep (tr : Tracker) : Tracker :=
  let lost := tr.lostFrames + 1
  if 3 ≤ lost then
    { tr with
      lostFrames := lost,
      gestureStable := Gesture.IDLE,
      gestureCandidate := Gesture.IDLE,
      gestureCount := 0,
      state := { tr.state with
                 detected := false
                 gesture := Gesture.IDLE
                 confidence := 0 } }
  else
    { tr with lostFrames := lost }

/-- `processResults(results)` (lines 63-121), with `now` passed explicitly
(the source reads `performance.now()`).  `hasHand` is
`multiHandLandmarks && multiHandLandmarks.length > 0`.  In the hand branch:
blend fingertip 8 with joint 7, mirror, remap to NDC, clamp to `[-1, 1]`,
run each axis through its One Euro filter, classify and stabilize the
gesture, reset the loss counter and publish a fresh state.  `confidence`
models the JS truthiness test `(multiHandedness && [0] && .score) ? score
: 1.0`: a missing or zero score yields `1`.  `none` records an access of an
out-of-range landmark index (a thrown TypeError in JS). -/
def Tracker.processResults (piQ : ℚ) (tr : Tracker) (results : HandResults)
    (now : ℚ) : Option Tracker :=
  match results.multiHandLandmarks with
  | [] => some (noHandStep tr)
  | lm :: _ =>
    match lm.get? 8, lm.get? 7 with
    | some p8, some p7 =>
        let fx := p8.x * 0.88 + p7.x * 0.12
        let fy := p8.y * 0.88 + p7.y * 0.12
        let x0 := (1 - fx) * 2 - 1
        let y0 := -(fy * 2 - 1)
        let x := max (-1) (min 1 x0)
        let y := max (-1) (min 1 y0)
        let fxr := OneEuroFilter.filter piQ tr.filterX x now
        let fyr := OneEuroFilter.filter piQ tr.filterY y now
        let confidence : ℚ :=
          match results.score with
          | some s => if s = 0 then 1 else s
          | none => 1
        match detectGesture lm with
        | some raw =>
            let st := tr.stabilizeGesture raw
            some { st.2 with
                   filterX := fxr.2,
                   filterY := fyr.2,
                   lostFrames := 0,
                   state := { detected := true, x := fxr.1, y := fyr.1,
                              gesture := st.1, confidence := confidence } }
        | none => none
    | _, _ => none

/-- A whole run of `processResults` calls on a fresh tracker, one input
`(results, now)` per frame; `none` as soon as one call would throw. -/
def processTrace (piQ : ℚ) (tr : Tracker) : List (HandResults × ℚ) → Option Tracker
  | [] => some tr
  | (r, t) :: rest =>
    match tr.processResults piQ r t with
    | some tr1 => processTrace piQ tr1 rest
    | none => none

/-- Iterating `stabilizeGesture` over a list of raw candidate labels. -/
def feedGestures (tr : Tracker) (gs : List Gesture) : Tracker :=
  gs.foldl (fun t g => (t.stabilizeGesture g).2) tr

/-- Feeding one constant raw value through a One Euro filter at a list of
timestamps, collecting the outputs. -/
def runConst (piQ : ℚ) (f : OneEuroFilter) (v : ℚ) :
    List ℚ → List ℚ × OneEuroFilter
  | [] => ([], f)
  | t :: rest =>
    let o := OneEuroFilter.filter piQ f v t
    let os := runConst piQ o.2 v rest
    (o.1 :: os.1, os.2)

/-- A three.js `Vector3`, over `ℝ` because the formation formulas use
transcendental functions. -/
structure Vec3 where
  x : ℝ
  y : ℝ
  z : ℝ

instance : Add Vec3 := ⟨fun a b => ⟨a.x + b.x, a.y + b.y, a.z + b.z⟩⟩

instance : Sub Vec3 := ⟨fun a b => ⟨a.x - b.x, a.y - b.y, a.z - b.z⟩⟩

/-- `Vector3.multiplyScalar` (componentwise). -/
def Vec3.scale (c : ℝ) (v : Vec3) : Vec3 := ⟨c * v.x, c * v.y, c * v.z⟩

/-- `Vector3.setFromSphericalCoords(radius, phi, theta)` in three.js:
`x = r·sin(phi)·sin(theta)`, `y = r·cos(phi)`, `z = r·sin(phi)·cos(theta)`. -/
noncomputable def Vec3.setFromSphericalCoords (r phi theta : ℝ) : Vec3 :=
  ⟨r * Real.sin phi * Real.sin theta,
   r * Real.cos phi,
   r * Real.sin phi * Real.cos theta⟩

/-- `Vector3.distanceTo`. -/
noncomputable def Vec3.dist (a b : Vec3) : ℝ :=
  Real.sqrt ((a.x - b.x) ^ 2 + (a.y - b.y) ^ 2 + (a.z - b.z) ^ 2)

/-- A three.js `Color`, over `ℚ` (the blend arithmetic is rational). -/
structure Color3 where
  r : ℚ
  g : ℚ
  b : ℚ
deriving DecidableEq

/-- `Color.lerp(color, alpha)` in three.js: each channel moves toward the
target by the fraction `a`. -/
def Color3.lerp (c t : Color3) (a : ℚ) : Color3 :=
  ⟨c.r + (t.r - c.r) * a, c.g + (t.g - c.g) * a, c.b + (t.b - c.b) * a⟩

/-- The *own* data properties of the `this.colors` object literal
(scene.js lines 34-39): `IDLE`/`STREAM` cyan `0x00ffff`, `SPHERE` red
`0xff3333`, `SHIELD` amber `0xffaa00`, as exact channel fractions of 255.
A key outside these four is not an own property; what the JS lookup then
yields is decided by the prototype chain, see `objLookup`. -/
def colorsOpt : String → Option Color3
  | "IDLE" => some ⟨0, 1, 1⟩
  | "STREAM" => some ⟨0, 1, 1⟩
  | "SPHERE" => some ⟨1, 1 / 5, 1 / 5⟩
  | "SHIELD" => some ⟨1, 2 / 3, 0⟩
  | _ => none

/-- The cyan `this.colors.IDLE`, the `||` fallback of the color lookup. -/
def colorIdle : Color3 := ⟨0, 1, 1⟩

/-- The own data properties of the `modeK` object literal
(scene.js lines 148-153). -/
def modeKOpt : String → Option ℝ
  | "IDLE" => some 0.012
  | "STREAM" => some 0.020
  | "SHIELD" => some 0.040
  | "SPHERE" => some 0.110
  | _ => none

/-- The own data properties of the `modeDamp` object literal
(scene.js lines 154-159). -/
def modeDampOpt : String → Option ℝ
  | "IDLE" => some 0.90
  | "STREAM" => some 0.86
  | "SHIELD" => some 0.82
  | "SPHERE" => some 0.74
  | _ => none

/-- The property names every plain JS object literal inherits from
`Object.prototype`.  Reading one of these keys on `modeK`, `modeDamp` or
`this.colors` yields the inherited value — a function, or for `__proto__`
the `Object.prototype` object itself — which is neither nullish nor falsy,
so neither `??` nor `||` falls back on it. -/
def protoKeys : List String :=
  ["constructor", "hasOwnProperty", "isPrototypeOf",
   "propertyIsEnumerable", "toLocaleString", "toString", "valueOf",
   "__defineGetter__", "__defineSetter__", "__lookupGetter__",
   "__lookupSetter__", "__proto__"]

/-- Outcome of a JS property read `obj[key]` on an object literal: an own
data property, a value inherited from `Object.prototype`, or `undefined`. -/
inductive JsProp (α : Type) where
  | own (v : α)
  | inherited
  | undef

/-- JS property lookup on an object literal whose own properties are given
by `own`: own properties shadow the prototype; keys of `Object.prototype`
are found on the prototype chain; everything else is `undefined`. -/
def objLookup {α : Type} (own : String → Option α) (key : String) :
    JsProp α :=
  match own key with
  | some v => JsProp.own v
  | none => if key ∈ protoKeys then JsProp.inherited else JsProp.undef

/-- `const kBase = modeK[this.mode] ?? modeK.IDLE` (scene.js line 210) as
the JS number finally multiplied into the spring constant: an own entry is
used as is; `undefined` makes `??` fall back to `modeK.IDLE = 0.012`; an
inherited `Object.prototype` value is non-nullish, so `??` keeps it, and
multiplying that function by a number yields NaN — modelled as `none`. -/
noncomputable def kBaseVal (mode : String) : Option ℝ :=
  match objLookup modeKOpt mode with
  | JsProp.own v => some v
  | JsProp.inherited => none
  | JsProp.undef => some 0.012

/-- `const damp = modeDamp[this.mode] ?? modeDamp.IDLE` (scene.js line
211), with the same NaN convention as `kBaseVal`
(`modeDamp.IDLE = 0.90`). -/
noncomputable def dampVal (mode : String) : Option ℝ :=
  match objLookup modeDampOpt mode with
  | JsProp.own v => some v
  | JsProp.inherited => none
  | JsProp.undef => some 0.90

/-- `const targetColor = this.colors[this.mode] || this.colors.IDLE`
(scene.js line 144): own entries are `Color` objects (truthy) and kept;
`undefined` is falsy, so `||` falls back to the cyan `colors.IDLE`; an
inherited `Object.prototype` value is truthy, so `||` keeps it, and
`Color.lerp` toward it reads `undefined` channels, turning every channel
NaN — modelled as `none`. -/
def colorVal (mode : String) : Option Color3 :=
  match objLookup colorsOpt mode with
  | JsProp.own v => some v
  | JsProp.inherited => none
  | JsProp.undef => some colorIdle

/-- The per-sword `userData` personality constants (scene.js lines 63-75),
immutable after creation. -/
structure SwordData where
  id : ℕ
  speed : ℝ
  randomOffset : Vec3
  freq : ℝ

/-- The per-mode formation target of one sword (scene.js lines 170-205).
The mode is the raw string `this.mode` (set from the gesture by `setMode`),
so arbitrary strings are possible; any string other than
`STREAM`/`SPHERE`/`SHIELD` — including `IDLE` — takes the final `else`
branch (the idle orbit around the world origin). -/
noncomputable def swordTargetPos (mode : String) (swordCount : ℕ)
    (u : SwordData) (time : ℝ) (tp : Vec3) : Vec3 :=
  if mode = "STREAM" then
    let base := tp + u.randomOffset
    let breathing := Real.sin (time * 0.5) * 0.2 + 1
    let b2 := Vec3.scale breathing (base - tp) + tp
    ⟨b2.x + Real.sin (time * u.freq + u.id) * 2.0,
     b2.y + Real.cos (time * u.freq * 0.8 + u.id) * 2.0,
     b2.z + Real.sin (time * 0.5 + u.id) * 3.0⟩
  else if mode = "SPHERE" then
    let phi := Real.arccos (-1 + (2 * u.id) / swordCount)
    let theta := Real.sqrt (swordCount * Real.pi) * phi
    Vec3.setFromSphericalCoords 2.0 phi (theta + time * 5) + tp
  else if mode = "SHIELD" then
    let angle := ((u.id : ℝ) / swordCount) * Real.pi * 2 + time
    (⟨Real.cos angle * 7, Real.sin angle * 7, 0⟩ : Vec3) + tp
  else
    let angle := (u.id : ℝ) * 0.1 + time * 0.1
    let r := 15 + Real.sin (time * 0.5 + u.id) * 5
    ⟨Real.cos angle * r, Real.sin angle * r * 0.8,
     Real.sin (angle * 2 + time) * 8⟩

/-- The mutable per-sword state advanced each frame. -/
structure SwordState where
  position : Vec3
  vel : Vec3
  color : Color3

/-- Result of one per-sword frame step.  `motion` is the new
(position, velocity) pair, `none` when a non-numeric spring constant or
damping factor (an inherited `Object.prototype` value) has poisoned them
to NaN; `color` is the new color, `none` when the blend target was such an
inherited value and every channel became NaN.  The step itself never
throws in either case. -/
structure SwordStepResult where
  motion : Option (Vec3 × Vec3)
  color : Option Color3

/-- One sword's slice of `SceneManager.update` (scene.js lines 166-230),
omitting the `lookAt` orientation write, which touches no state read back
by the engine: formation target, spring-damper integration
(`vel += toTarget*k; vel *= damp; pos += vel` with
`k = kBase * (0.7 + speed*10)`), and the color blend with
`colorLerpSpeed = 0.05`.  `kBase`, `damp` and the target color come from
the prototype-aware lookups `kBaseVal`, `dampVal` and `colorVal`; a NaN
outcome there poisons the corresponding components, as in the source. -/
noncomputable def stepSword (mode : String) (swordCount : ℕ) (u : SwordData)
    (time : ℝ) (tp : Vec3) (s : SwordState) : SwordStepResult :=
  let targetPos := swordTargetPos mode swordCount u time tp
  let toTarget := targetPos - s.position
  let motion :=
    match kBaseVal mode, dampVal mode with
    | some kBase, some damp =>
        let k := kBase * (0.7 + u.speed * 10)
        let vel1 := s.vel + Vec3.scale k toTarget
        let vel2 := Vec3.scale damp vel1
        some (s.position + vel2, vel2)
    | _, _ => none
  let color :=
    match colorVal mode with
    | some targetColor => some (s.color.lerp targetColor 0.05)
    | none => none
  { motion := motion, color := color }

/-- The color of one sword after `n` frames of `update` with a fixed target
color: `n`-fold iteration of the `lerp _ 0.05` blend (scene.js line 229). -/
def colorIter (c t : Color3) : ℕ → Color3
  | 0 => c
  | n + 1 => (colorIter c t n).lerp t 0.05

/-- Distance between two colors: the sum of absolute channel differences. -/
def colorDist (a b : Color3) : ℚ := |a.r - b.r| + |a.g - b.g| + |a.b - b.b|

/-- Total wrist-distance-squared used by the spec-side classifier below;
out-of-range indices read the `Inhabited` default, which cannot occur on the
21-point sets the claim quantifies over. -/
def distSqD (lm : List Landmark) (idx : ℕ) : ℚ :=
  let p := lm.getD idx default
  let w := lm.getD 0 default
  (p.x - w.x) ^ 2 + (p.y - w.y) ^ 2

/-- Total version of the finger-open ratio test. -/
def fingerOpenD (lm : List Landmark) (tip mcp : ℕ) (ratio : ℚ) : Bool :=
  decide (distSqD lm mcp * ratio ^ 2 < distSqD lm tip)

/-- The decision table exactly as the specification words it (first match
wins): exactly the index finger open with middle, ring and pinky closed →
STREAM; index, middle, ring, pinky and thumb all closed → SPHERE; index,
middle, ring and pinky all open → SHIELD; anything else → STREAM.  Stated
independently of `detectGesture` so that the claimed decision order can be
compared against the source's cascade. -/
def classifySpec (lm : List Landmark) : Gesture :=
  let indexOpen := fingerOpenD lm 8 5 1.10
  let middleOpen := fingerOpenD lm 12 9 1.12
  let ringOpen := fingerOpenD lm 16 13 1.12
  let pinkyOpen := fingerOpenD lm 20 17 1.12
  let thumbOpen := fingerOpenD lm 4 2 1.08
  if indexOpen ∧ ¬middleOpen ∧ ¬ringOpen ∧ ¬pinkyOpen then Gesture.STREAM
  else if ¬indexOpen ∧ ¬middleOpen ∧ ¬ringOpen ∧ ¬pinkyOpen ∧ ¬thumbOpen then
    Gesture.SPHERE
  else if indexOpen ∧ middleOpen ∧ ringOpen ∧ pinkyOpen then Gesture.SHIELD
  else Gesture.STREAM

/-- The coordinate bounds the published state must satisfy whenever a hand
is detected, as a predicate on the (possibly crashed) result of a run. -/
def XYBounded : Option Tracker → Prop
  | none => True
  | some tr =>
      tr.state.detected = true →
        -1 ≤ tr.state.x ∧ tr.state.x ≤ 1 ∧ -1 ≤ tr.state.y ∧ tr.state.y ≤ 1

/-- Well-formedness of a low-pass stage: once initialized, its stored
sample lies in the clamp interval. -/
def LowPassFilter.InRange (f : LowPassFilter) : Prop :=
  f.initialized = true → -1 ≤ f.s ∧ f.s ≤ 1

/-- Invariant of a pointer-axis One Euro filter: positive rate estimate,
positive minimum cutoff, nonnegative speed coefficient, and an in-range
stored sample.  It holds for the constructed filters and is preserved by
every call on a clamped input. -/
def OneEuroFilter.Good (f : OneEuroFilter) : Prop :=
  0 < f.freq ∧ 0 < f.minCutoff ∧ 0 ≤ f.beta ∧ f.x.InRange

/-- Invariant of the whole tracker tied to claim C10. -/
def Tracker.Good (tr : Tracker) : Prop :=
  tr.filterX.Good ∧ tr.filterY.Good ∧
    (tr.state.detected = true →
      -1 ≤ tr.state.x ∧ tr.state.x ≤ 1 ∧ -1 ≤ tr.state.y ∧ tr.state.y ≤ 1)

/-- A landmark at the image origin. -/
def pt0 : Landmark := ⟨0, 0⟩

/-- A full 21-point landmark set with every point at the origin. -/
def lm21 : List Landmark := List.replicate 21 pt0

/-- A MediaPipe result carrying one full 21-point hand. -/
def hand21 : HandResults := ⟨[lm21], none⟩

/-- A MediaPipe result with no hands. -/
def noHands : HandResults := ⟨[], none⟩

/-- A MediaPipe result whose single hand has only one landmark. -/
def hand1pt : HandResults := ⟨[[pt0]], none⟩

/-- One detected frame followed by three consecutive no-hand frames. -/
def c1Trace : List (HandResults × ℚ) :=
  [(hand21, 0), (noHands, 1), (noHands, 2), (noHands, 3)]

/-- A One Euro filter state that has seen a previous call at time 100. -/
def c4Filter : OneEuroFilter :=
  { freq := 30, minCutoff := 1.2, beta := 0.08, dCutoff := 1,
    x := { alpha := alphaOf 1 30 1.2, initialized := true, s := 0 },
    dx := { alpha := alphaOf 1 30 1, initialized := true, s := 0 },
    lastTime := some 100 }

/-- A reachable stabilizer state with a pending two-frame STREAM run:
the committed label is still IDLE but one more STREAM frame commits. -/
def c3Start : Tracker :=
  feedGestures (initTracker 1) [Gesture.STREAM, Gesture.STREAM]

/-- `stabilizeGesture` in closed form: the candidate always becomes the
incoming label, the counter increments on a match and restarts at 1
otherwise, and the committed label changes exactly when the new counter
reaches the threshold. -/
theorem stabilizeGesture_eq (t : Tracker) (g : Gesture) :
    t.stabilizeGesture g =
      ((if t.gestureStableFrames ≤
            (if g = t.gestureCandidate then t.gestureCount + 1 else 1) then g
        else t.gestureStable),
       { t with
         gestureCandidate := g,
         gestureCount :=
           if g = t.gestureCandidate then t.gestureCount + 1 else 1,
         gestureStable :=
           if t.gestureStableFrames ≤
               (if g = t.gestureCandidate then t.gestureCount + 1 else 1) then g
           else t.gestureStable }) := by
  unfold Tracker.stabilizeGesture
  by_cases h : g = t.gestureCandidate <;> simp [h]

theorem feedGestures_cons (t : Tracker) (g : Gesture) (gs : List Gesture) :
    feedGestures t (g :: gs) = feedGestures (t.stabilizeGesture g).2 gs := rfl

/-- `LowPassFilter.filter` never changes the stored `alpha`. -/
theorem lowpass_alpha (f : LowPassFilter) (x : ℚ) :
    (f.filter x).2.alpha = f.alpha := by
  unfold LowPassFilter.filter
  by_cases h : f.initialized <;> simp [h]

/-- A low-pass stage already holding the incoming value keeps returning it,
and an uninitialized stage seeds with it: in both cases the output and the
new stored sample equal the input. -/
theorem lowpass_fixed (f : LowPassFilter) (v : ℚ)
    (h : f.initialized = false ∨ f.s = v) :
    (f.filter v).1 = v ∧ (f.filter v).2.s = v ∧
      (f.filter v).2.initialized = true := by
  unfold LowPassFilter.filter
  rcases h with h | h
  · simp [h]
  · by_cases hi : f.initialized <;> simp [hi, h] <;> ring

/-- A call on a One Euro filter whose position stage is uninitialized or
already stores the incoming value returns that value exactly and stores it
again, whatever happens to the rate estimate and cutoffs. -/
theorem oneEuro_const (piQ : ℚ) (f : OneEuroFilter) (v t : ℚ)
    (h : f.x.initialized = false ∨ f.x.s = v) :
    (OneEuroFilter.filter piQ f v t).1 = v ∧
      (OneEuroFilter.filter piQ f v t).2.x.initialized = true ∧
      (OneEuroFilter.filter piQ f v t).2.x.s = v := by
  have key : ∀ a : ℚ,
      (LowPassFilter.filter ⟨a, f.x.initialized, f.x.s⟩ v).1 = v ∧
        (LowPassFilter.filter ⟨a, f.x.initialized, f.x.s⟩ v).2.initialized
            = true ∧
        (LowPassFilter.filter ⟨a, f.x.initialized, f.x.s⟩ v).2.s = v := by
    intro a
    unfold LowPassFilter.filter
    rcases h with h | h
    · simp [h]
    · by_cases hi : f.x.initialized <;> simp [hi, h] <;> ring
  simp only [OneEuroFilter.filter]
  rcases hl : f.lastTime with _ | t0 <;> simp only <;> split_ifs <;>
    exact ⟨(key _).1, (key _).2.1, (key _).2.2⟩

/-- C3: feeding a candidate label `A` to the stabilizer for `threshold − 1 =
2` consecutive calls and then switching to `B ≠ A` leaves the committed
label unchanged, provided `A` has no pending run in the starting state;
feeding `B` for 3 consecutive calls commits `B` from any starting state
with the default threshold; and every call returns the committed label as
of the end of that call, never the raw candidate.  (The claim's original
"for every starting stabilizer state" fails — see the counterexample — so
the first part carries the no-pending-run proviso.) -/
theorem gesture_commit_hysteresis (A B g : Gesture) (tr trB trR : Tracker)
    (hthr : tr.gestureStableFrames = 3)
    (hfresh : tr.gestureCandidate ≠ A ∨ tr.gestureCount = 0)
    (hAB : B ≠ A)
    (hthrB : trB.gestureStableFrames = 3) :
    (feedGestures tr [A, A, B]).gestureStable = tr.gestureStable ∧
    (feedGestures trB [B, B, B]).gestureStable = B ∧
    (trR.stabilizeGesture g).1 = (trR.stabilizeGesture g).2.gestureStable := by
  refine ⟨?_, ?_, rfl⟩
  · have hc1 : (if A = tr.gestureCandidate then tr.gestureCount + 1 else 1)
        = 1 := by
      rcases hfresh with hc | hc
      · rw [if_neg fun hh => hc hh.symm]
      · by_cases hA : A = tr.gestureCandidate <;> simp [hA, hc]
    simp [feedGestures, stabilizeGesture_eq, hthr, hc1, hAB]
  · by_cases hB : B = trB.gestureCandidate <;>
      simp [feedGestures, stabilizeGesture_eq, hthrB, hB]

/-- Witness for C3 at the freshly constructed tracker with `A = STREAM`,
`B = SPHERE`. -/
theorem gesture_commit_hysteresis_witness :
    (initTracker 1).gestureStableFrames = 3 ∧
    ((initTracker 1).gestureCandidate ≠ Gesture.STREAM ∨
      (initTracker 1).gestureCount = 0) ∧
    Gesture.SPHERE ≠ Gesture.STREAM ∧
    ((feedGestures (initTracker 1)
        [Gesture.STREAM, Gesture.STREAM, Gesture.SPHERE]).gestureStable
          = (initTracker 1).gestureStable ∧
      (feedGestures (initTracker 1)
        [Gesture.SPHERE, Gesture.SPHERE, Gesture.SPHERE]).gestureStable
          = Gesture.SPHERE ∧
      ((initTracker 1).stabilizeGesture Gesture.IDLE).1
          = ((initTracker 1).stabilizeGesture Gesture.IDLE).2.gestureStable) :=
  ⟨rfl, Or.inl (by decide), by decide,
    gesture_commit_hysteresis Gesture.STREAM Gesture.SPHERE Gesture.IDLE
      (initTracker 1) (initTracker 1) (initTracker 1)
      rfl (Or.inl (by decide)) (by decide) rfl⟩

/-- C3's universally quantified first part is false as frozen: from the
reachable state `c3Start` (committed IDLE, pending candidate STREAM with a
run of 2), feeding `A = STREAM` for `threshold − 1 = 2` calls and then
switching to `B = SPHERE` commits STREAM, changing the committed label. -/
theorem gesture_commit_pending_run_counterexample :
    c3Start.gestureStableFrames = 3 ∧
    c3Start.gestureStable = Gesture.IDLE ∧
    c3Start.gestureCandidate = Gesture.STREAM ∧
    c3Start.gestureCount = 2 ∧
    (feedGestures c3Start
        [Gesture.STREAM, Gesture.STREAM, Gesture.SPHERE]).gestureStable
      ≠ c3Start.gestureStable := by
  refine ⟨rfl, rfl, rfl, rfl, ?_⟩
  decide

/-- C4: a `filter` call whose timestamp does not advance past the previous
one (`dt ≤ 0`) leaves the estimated sample rate unchanged, and the
derivative-stage smoothing coefficient is still computed from that same
retained rate; the retained rate stays positive, so no division by zero or
infinite cutoff arises. -/
theorem adaptive_filter_nonpositive_delta_keeps_rate
    (piQ : ℚ) (f : OneEuroFilter) (v t t0 : ℚ)
    (hlast : f.lastTime = some t0) (hdt : t ≤ t0) :
    (OneEuroFilter.filter piQ f v t).2.freq = f.freq ∧
    (OneEuroFilter.filter piQ f v t).2.dx.alpha
        = alphaOf piQ f.freq f.dCutoff ∧
    (0 < f.freq → 0 < (OneEuroFilter.filter piQ f v t).2.freq) := by
  have hneg : ¬ 0 < (t - t0) / 1000 := by
    rw [not_lt]
    have h1 : t - t0 ≤ 0 := sub_nonpos.mpr hdt
    linarith
  simp only [OneEuroFilter.filter, hlast, hneg, if_false]
  refine ⟨trivial, ?_, fun h => h⟩
  rw [lowpass_alpha]

/-- Witness for C4: a second call at time 50 after a first call at time
100 keeps `freq = 30`. -/
theorem adaptive_filter_nonpositive_delta_witness :
    c4Filter.lastTime = some 100 ∧ (50 : ℚ) ≤ 100 ∧
    ((OneEuroFilter.filter 1 c4Filter 0 50).2.freq = c4Filter.freq ∧
      (OneEuroFilter.filter 1 c4Filter 0 50).2.dx.alpha
          = alphaOf 1 c4Filter.freq c4Filter.dCutoff ∧
      (0 < c4Filter.freq →
        0 < (OneEuroFilter.filter 1 c4Filter 0 50).2.freq)) :=
  ⟨rfl, by decide,
    adaptive_filter_nonpositive_delta_keeps_rate 1 c4Filter 0 50 100 rfl
      (by decide)⟩

theorem runConst_const (piQ v : ℚ) :
    ∀ (ts : List ℚ) (f : OneEuroFilter),
      f.x.initialized = false ∨ f.x.s = v →
      (runConst piQ f v ts).1 = List.replicate ts.length v := by
  intro ts
  induction ts with
  | nil => intro f _; rfl
  | cons t rest ih =>
      intro f h
      obtain ⟨h1, h2, h3⟩ := oneEuro_const piQ f v t h
      simp [runConst, h1, List.replicate_succ, ih _ (Or.inr h3)]

/-- C5: the first call of a freshly constructed One Euro filter returns the
raw value unchanged (the position stage seeds with it), and a constant
input sequence yields that constant back on every frame — the output
sequence is exactly constant, hence converges to the input value — for
every tuning and every timestamp sequence. -/
theorem adaptive_filter_seed_and_constant_convergence
    (piQ fr mc be dc v t : ℚ) (ts : List ℚ) :
    (OneEuroFilter.filter piQ (mkOneEuro piQ fr mc be dc) v t).1 = v ∧
    (runConst piQ (mkOneEuro piQ fr mc be dc) v ts).1
        = List.replicate ts.length v :=
  ⟨(oneEuro_const piQ _ v t (Or.inl rfl)).1,
   runConst_const piQ v ts _ (Or.inl rfl)⟩

theorem colorDist_nonneg (a b : Color3) : 0 ≤ colorDist a b := by
  unfold colorDist
  positivity

theorem colorDist_lerp_step (c t : Color3) :
    colorDist (c.lerp t 0.05) t = 19 / 20 * colorDist c t := by
  unfold colorDist Color3.lerp
  have k : ∀ a b : ℚ, |a + (b - a) * 0.05 - b| = 19 / 20 * |a - b| := by
    intro a b
    rw [show a + (b - a) * 0.05 - b = 19 / 20 * (a - b) by
          rw [show (0.05 : ℚ) = 1 / 20 by norm_num]; ring,
        abs_mul]
    norm_num
  dsimp only
  rw [k, k, k]
  ring

theorem colorIter_closed (c t : Color3) (n : ℕ) :
    colorDist (colorIter c t n) t = (19 / 20) ^ n * colorDist c t := by
  induction n with
  | zero => simp [colorIter]
  | succ n ih =>
      rw [show colorIter c t (n + 1) = (colorIter c t n).lerp t 0.05 from rfl,
          colorDist_lerp_step, ih, pow_succ]
      ring

/-- C9: each frame's color blend moves the agent color toward the target by
the constant factor 0.05, so the color distance to an unchanged target
contracts by exactly 19/20 per frame — in particular it never increases
(no overshoot) — and it converges to 0, i.e. the color converges to the
target. -/
theorem sword_color_blend_monotone_convergent (c t : Color3) (n : ℕ) :
    colorDist (colorIter c t (n + 1)) t ≤ colorDist (colorIter c t n) t ∧
    colorDist (colorIter c t n) t = (19 / 20) ^ n * colorDist c t ∧
    ∀ ε : ℚ, 0 < ε → ∃ N : ℕ, ∀ m : ℕ, N ≤ m →
      colorDist (colorIter c t m) t < ε := by
  refine ⟨?_, colorIter_closed c t n, ?_⟩
  · rw [show colorIter c t (n + 1) = (colorIter c t n).lerp t 0.05 from rfl,
        colorDist_lerp_step]
    nlinarith [colorDist_nonneg (colorIter c t n) t]
  · intro ε hε
    by_cases hd : colorDist c t = 0
    · exact ⟨0, fun m _ => by
        rw [colorIter_closed, hd, mul_zero]; exact hε⟩
    · have hd' : 0 < colorDist c t :=
        lt_of_le_of_ne (colorDist_nonneg c t) (Ne.symm hd)
      obtain ⟨N, hN⟩ :=
        exists_pow_lt_of_lt_one (div_pos hε hd')
          (by norm_num : (19 : ℚ) / 20 < 1)
      refine ⟨N, fun m hm => ?_⟩
      rw [colorIter_closed]
      calc (19 / 20 : ℚ) ^ m * colorDist c t
          ≤ (19 / 20) ^ N * colorDist c t :=
            mul_le_mul_of_nonneg_right
              (pow_le_pow_of_le_one (by norm_num) (by norm_num) hm)
              (le_of_lt hd')
        _ < ε := (lt_div_iff₀ hd').mp hN

/-- Witness for C9 at `ε = 1`, red blending toward cyan. -/
theorem sword_color_blend_witness :
    0 < (1 : ℚ) ∧
    (∃ N : ℕ, ∀ m : ℕ, N ≤ m →
      colorDist (colorIter ⟨1, 0, 0⟩ ⟨0, 1, 1⟩ m) ⟨0, 1, 1⟩ < 1) :=
  ⟨by decide,
    (sword_color_blend_monotone_convergent ⟨1, 0, 0⟩ ⟨0, 1, 1⟩ 0).2.2 1
      (by decide)⟩

/-- On an empty hand list, `processResults` takes the no-detection branch. -/
theorem processResults_noHand (piQ : ℚ) (tr : Tracker) (r : HandResults)
    (t : ℚ) (hr : r.multiHandLandmarks = []) :
    tr.processResults piQ r t = some (noHandStep tr) := by
  unfold Tracker.processResults
  rw [hr]

/-- Below the loss threshold, the lost-frame branch only counts. -/
theorem noHandStep_below (tr : Tracker) (h : tr.lostFrames + 1 < 3) :
    noHandStep tr = { tr with lostFrames := tr.lostFrames + 1 } := by
  unfold noHandStep
  rw [if_neg (by omega)]

/-- At the loss threshold, the lost-frame branch resets stabilizer and
published flags but leaves `state.x`/`state.y` alone. -/
theorem noHandStep_reset (tr : Tracker) (h : 3 ≤ tr.lostFrames + 1) :
    noHandStep tr =
      { tr with
        lostFrames := tr.lostFrames + 1,
        gestureStable := Gesture.IDLE,
        gestureCandidate := Gesture.IDLE,
        gestureCount := 0,
        state := { tr.state with
                   detected := false
                   gesture := Gesture.IDLE
                   confidence := 0 } } := by
  unfold noHandStep
  rw [if_pos h]

/-- The hand branch of `processResults` in closed form, given that the
landmark accesses succeed. -/
theorem processResults_hand (piQ : ℚ) (tr : Tracker) (r : HandResults)
    (t : ℚ) (lm : List Landmark) (rest : List (List Landmark))
    (p8 p7 : Landmark) (raw : Gesture)
    (hr : r.multiHandLandmarks = lm :: rest)
    (h8 : lm.get? 8 = some p8) (h7 : lm.get? 7 = some p7)
    (hg : detectGesture lm = some raw) :
    tr.processResults piQ r t = some
      { (tr.stabilizeGesture raw).2 with
        filterX := (OneEuroFilter.filter piQ tr.filterX
          (max (-1) (min 1 ((1 - (p8.x * 0.88 + p7.x * 0.12)) * 2 - 1)))
          t).2,
        filterY := (OneEuroFilter.filter piQ tr.filterY
          (max (-1) (min 1 (-((p8.y * 0.88 + p7.y * 0.12) * 2 - 1)))) t).2,
        lostFrames := 0,
        state :=
          { detected := true,
            x := (OneEuroFilter.filter piQ tr.filterX
              (max (-1) (min 1 ((1 - (p8.x * 0.88 + p7.x * 0.12)) * 2 - 1)))
              t).1,
            y := (OneEuroFilter.filter piQ tr.filterY
              (max (-1) (min 1 (-((p8.y * 0.88 + p7.y * 0.12) * 2 - 1))))
              t).1,
            gesture := (tr.stabilizeGesture raw).1,
            confidence :=
              match r.score with
              | some s => if s = 0 then 1 else s
              | none => 1 } } := by
  unfold Tracker.processResults
  rw [hr]
  simp only [h8, h7, hg]

/-- C1 (amended): starting from any tracker just after a detected frame or
at startup (`lostFrames = 0`), the first two consecutive no-hand frames
leave the published state completely unchanged (hold-last, no forced IDLE);
the third resets `detected`, `gesture` and `confidence` and the whole
stabilizer — while `x` and `y` keep their last values (the source never
zeroes them). -/
theorem loss_run_holds_then_resets (piQ : ℚ) (tr : Tracker)
    (r1 r2 r3 : HandResults) (t1 t2 t3 : ℚ)
    (h0 : tr.lostFrames = 0)
    (h1 : r1.multiHandLandmarks = []) (h2 : r2.multiHandLandmarks = [])
    (h3 : r3.multiHandLandmarks = []) :
    tr.processResults piQ r1 t1 = some (noHandStep tr) ∧
    (noHandStep tr).state = tr.state ∧
    (noHandStep tr).processResults piQ r2 t2
        = some (noHandStep (noHandStep tr)) ∧
    (noHandStep (noHandStep tr)).state = tr.state ∧
    (noHandStep (noHandStep tr)).processResults piQ r3 t3
        = some (noHandStep (noHandStep (noHandStep tr))) ∧
    (noHandStep (noHandStep (noHandStep tr))).state
        = { tr.state with
            detected := false
            gesture := Gesture.IDLE
            confidence := 0 } ∧
    (noHandStep (noHandStep (noHandStep tr))).gestureStable = Gesture.IDLE ∧
    (noHandStep (noHandStep (noHandStep tr))).gestureCandidate
        = Gesture.IDLE ∧
    (noHandStep (noHandStep (noHandStep tr))).gestureCount = 0 := by
  have e1 : noHandStep tr = { tr with lostFrames := 1 } := by
    rw [noHandStep_below tr (by omega), h0]
  have e2 : noHandStep (noHandStep tr)
      = { tr with lostFrames := 2 } := by
    rw [e1, noHandStep_below _ (by simp), ]
  have e3 : noHandStep (noHandStep (noHandStep tr))
      = { tr with
          lostFrames := 3,
          gestureStable := Gesture.IDLE,
          gestureCandidate := Gesture.IDLE,
          gestureCount := 0,
          state := { tr.state with
                     detected := false
                     gesture := Gesture.IDLE
                     confidence := 0 } } := by
    rw [e2, noHandStep_reset _ (by simp)]
  refine ⟨processResults_noHand piQ tr r1 t1 h1, by rw [e1],
    processResults_noHand piQ _ r2 t2 h2, by rw [e2],
    processResults_noHand piQ _ r3 t3 h3, by rw [e3],
    by rw [e3], by rw [e3], by rw [e3]⟩

/-- Witness for C1 at the freshly constructed tracker fed three no-hand
frames. -/
theorem loss_run_holds_then_resets_witness :
    (initTracker 1).lostFrames = 0 ∧ noHands.multiHandLandmarks = [] ∧
    ((initTracker 1).processResults 1 noHands 0
        = some (noHandStep (initTracker 1)) ∧
      (noHandStep (initTracker 1)).state = (initTracker 1).state ∧
      (noHandStep (initTracker 1)).processResults 1 noHands 1
          = some (noHandStep (noHandStep (initTracker 1))) ∧
      (noHandStep (noHandStep (initTracker 1))).state
          = (initTracker 1).state ∧
      (noHandStep (noHandStep (initTracker 1))).processResults 1 noHands 2
          = some (noHandStep (noHandStep (noHandStep (initTracker 1)))) ∧
      (noHandStep (noHandStep (noHandStep (initTracker 1)))).state
          = { (initTracker 1).state with
              detected := false
              gesture := Gesture.IDLE
              confidence := 0 } ∧
      (noHandStep (noHandStep (noHandStep (initTracker 1)))).gestureStable
          = Gesture.IDLE ∧
      (noHandStep (noHandStep (noHandStep (initTracker 1)))).gestureCandidate
          = Gesture.IDLE ∧
      (noHandStep (noHandStep (noHandStep (initTracker 1)))).gestureCount
          = 0) :=
  ⟨rfl, rfl,
    loss_run_holds_then_resets 1 (initTracker 1) noHands noHands noHands
      0 1 2 rfl rfl rfl rfl⟩

/-- Each wrist-distance of `detectGesture` is defined whenever the index is
in range (the wrist, index 0, included). -/
theorem distSqToWrist_isSome (lm : List Landmark) (i : ℕ)
    (hi : i < lm.length) (h0 : 0 < lm.length) :
    ∃ q, distSqToWrist lm i = some q := by
  unfold distSqToWrist
  rw [List.get?_eq_get hi, List.get?_eq_get h0]
  exact ⟨_, rfl⟩

/-- Each finger predicate of `detectGesture` is defined whenever both
indices are in range. -/
theorem isFingerOpen_isSome (lm : List Landmark) (a b : ℕ) (ratio : ℚ)
    (ha : a < lm.length) (hb : b < lm.length) (h0 : 0 < lm.length) :
    ∃ bl, isFingerOpen lm a b ratio = some bl := by
  obtain ⟨qa, hqa⟩ := distSqToWrist_isSome lm a ha h0
  obtain ⟨qb, hqb⟩ := distSqToWrist_isSome lm b hb h0
  unfold isFingerOpen
  rw [hqa, hqb]
  exact ⟨_, rfl⟩

/-- On a full 21-point set every access of the classifier succeeds. -/
theorem detectGesture_isSome (lm : List Landmark) (hlen : 21 ≤ lm.length) :
    ∃ g, detectGesture lm = some g := by
  obtain ⟨b1, e1⟩ := isFingerOpen_isSome lm 8 5 1.10
    (by omega) (by omega) (by omega)
  obtain ⟨b2, e2⟩ := isFingerOpen_isSome lm 12 9 1.12
    (by omega) (by omega) (by omega)
  obtain ⟨b3, e3⟩ := isFingerOpen_isSome lm 16 13 1.12
    (by omega) (by omega) (by omega)
  obtain ⟨b4, e4⟩ := isFingerOpen_isSome lm 20 17 1.12
    (by omega) (by omega) (by omega)
  obtain ⟨b5, e5⟩ := isFingerOpen_isSome lm 4 2 1.08
    (by omega) (by omega) (by omega)
  unfold detectGesture
  rw [e1, e2, e3, e4, e5]
  cases b1 <;> cases b2 <;> cases b3 <;> cases b4 <;> cases b5 <;>
    exact ⟨_, rfl⟩

/-- C2 (amended): the source guards only on the presence of a hand, not on
the landmark count.  A 21-point (or larger) landmark set never triggers an
out-of-range landmark access anywhere on the classification path, and an
absent hand takes the no-detection branch — but a *nonempty* undersized
set is not treated as "no hand"; it takes the detection branch and performs
an out-of-range access (see the counterexample). -/
theorem landmarks_full_no_oob (piQ : ℚ) (tr : Tracker) (r r2 : HandResults)
    (t : ℚ) (lm : List Landmark) (rest : List (List Landmark))
    (hr : r.multiHandLandmarks = lm :: rest) (hlen : 21 ≤ lm.length)
    (hr2 : r2.multiHandLandmarks = []) :
    (detectGesture lm).isSome = true ∧
    (tr.processResults piQ r t).isSome = true ∧
    tr.processResults piQ r2 t = some (noHandStep tr) := by
  obtain ⟨g, hg⟩ := detectGesture_isSome lm hlen
  obtain ⟨p8, h8⟩ : ∃ p, lm.get? 8 = some p :=
    ⟨_, List.get?_eq_get (by omega)⟩
  obtain ⟨p7, h7⟩ : ∃ p, lm.get? 7 = some p :=
    ⟨_, List.get?_eq_get (by omega)⟩
  refine ⟨by rw [hg]; rfl, ?_, processResults_noHand piQ tr r2 t hr2⟩
  rw [processResults_hand piQ tr r t lm rest p8 p7 g hr h8 h7 hg]
  rfl

/-- Witness for C2: a full 21-point hand and an empty result, on the fresh
tracker. -/
theorem landmarks_full_no_oob_witness :
    hand21.multiHandLandmarks = lm21 :: [] ∧ 21 ≤ lm21.length ∧
    noHands.multiHandLandmarks = [] ∧
    ((detectGesture lm21).isSome = true ∧
      ((initTracker 1).processResults 1 hand21 0).isSome = true ∧
      (initTracker 1).processResults 1 noHands 0
          = some (noHandStep (initTracker 1))) :=
  ⟨rfl, by decide, rfl,
    landmarks_full_no_oob 1 (initTracker 1) hand21 noHands 0 lm21 []
      rfl (by decide) rfl⟩

/-- C1 is false as frozen on its reset clause: after one detected frame
that publishes the pointer at `(1, 1)`, the third consecutive no-hand
frame produces `detected = false`, `gesture = IDLE`, `confidence = 0` —
but `x = y = 1`, not the `x = 0, y = 0` the claim requires: the source
never zeroes the coordinates. -/
theorem loss_reset_keeps_xy_counterexample :
    (processTrace 1 (initTracker 1) c1Trace).map
        (fun tr => (tr.state.detected, tr.state.x, tr.state.y,
                    tr.state.gesture, tr.state.confidence))
      = some (false, 1, 1, Gesture.IDLE, 0) ∧ (1 : ℚ) ≠ 0 := by
  refine ⟨?_, by norm_num⟩
  have hpt : ∀ i < 21, lm21.get? i = some pt0 := by decide
  have hds : ∀ i, i < 21 → distSqToWrist lm21 i = some 0 := by
    intro i hi
    unfold distSqToWrist
    rw [hpt i hi, hpt 0 (by norm_num)]
    simp [pt0]
  have hfo : ∀ a b : ℕ, a < 21 → b < 21 → ∀ ratio : ℚ,
      isFingerOpen lm21 a b ratio = some false := by
    intro a b ha hb ratio
    unfold isFingerOpen
    rw [hds a ha, hds b hb]
    norm_num
  have hdg : detectGesture lm21 = some Gesture.SPHERE := by
    unfold detectGesture
    rw [hfo 8 5 (by norm_num) (by norm_num),
        hfo 12 9 (by norm_num) (by norm_num),
        hfo 16 13 (by norm_num) (by norm_num),
        hfo 20 17 (by norm_num) (by norm_num),
        hfo 4 2 (by norm_num) (by norm_num)]
    rfl
  have hstep1 := processResults_hand 1 (initTracker 1) hand21 0 lm21 []
      pt0 pt0 Gesture.SPHERE rfl rfl rfl hdg
  have hnh : ∀ (tr : Tracker) (t : ℚ),
      tr.processResults 1 noHands t = some (noHandStep tr) :=
    fun tr t => processResults_noHand 1 tr noHands t rfl
  have hvx : max (-1 : ℚ)
      (min 1 ((1 - (pt0.x * 0.88 + pt0.x * 0.12)) * 2 - 1)) = 1 := by
    norm_num [pt0]
  have hvy : max (-1 : ℚ)
      (min 1 (-((pt0.y * 0.88 + pt0.y * 0.12) * 2 - 1))) = 1 := by
    norm_num [pt0]
  have hx1 : (OneEuroFilter.filter 1 (initTracker 1).filterX
      (max (-1) (min 1 ((1 - (pt0.x * 0.88 + pt0.x * 0.12)) * 2 - 1)))
      0).1 = 1 :=
    (oneEuro_const 1 (initTracker 1).filterX _ 0 (Or.inl rfl)).1.trans hvx
  have hy1 : (OneEuroFilter.filter 1 (initTracker 1).filterY
      (max (-1) (min 1 (-((pt0.y * 0.88 + pt0.y * 0.12) * 2 - 1))))
      0).1 = 1 :=
    (oneEuro_const 1 (initTracker 1).filterY _ 0 (Or.inl rfl)).1.trans hvy
  rw [show c1Trace
      = (hand21, 0) :: [(noHands, 1), (noHands, 2), (noHands, 3)] from rfl]
  simp only [processTrace, hstep1, hnh]
  simp [noHandStep, hx1, hy1, hand21]
  exact (oneEuro_const 1 (initTracker 1).filterY _ 0 (Or.inl rfl)).1.trans
    (by norm_num [pt0])

/-- C2 is false as frozen: a nonempty hand with a single landmark passes
the `hasHand` test (it is not treated as "no hand") and the classification
path then performs an out-of-range landmark access — modelled as `none`,
a thrown `TypeError` in the source — instead of taking the no-detection
branch. -/
theorem undersized_hand_oob_counterexample :
    hand1pt.multiHandLandmarks ≠ [] ∧
    (initTracker 1).processResults 1 hand1pt 0 = none := by
  exact ⟨by decide, rfl⟩

/-- On in-range indices the partial finger predicate of the source agrees
with the total spec-side one. -/
theorem isFingerOpen_eq_spec (lm : List Landmark) (a b : ℕ) (ratio : ℚ)
    (ha : a < lm.length) (hb : b < lm.length) (h0 : 0 < lm.length) :
    isFingerOpen lm a b ratio = some (fingerOpenD lm a b ratio) := by
  simp only [isFingerOpen, fingerOpenD, distSqToWrist, distSqD,
    List.getD_eq_get?, List.get?_eq_get ha, List.get?_eq_get hb,
    List.get?_eq_get h0, Option.getD_some]

/-- C6: on every full 21-point landmark set the source classifier follows
exactly the claimed first-match decision order — index alone open →
STREAM; all five digits closed → SPHERE; the four fingers open → SHIELD;
anything else → STREAM — and in particular never returns IDLE. -/
theorem gesture_decision_order (lm : List Landmark)
    (hlen : 21 ≤ lm.length) :
    detectGesture lm = some (classifySpec lm) ∧
    detectGesture lm ≠ some Gesture.IDLE := by
  have h1 := isFingerOpen_eq_spec lm 8 5 1.10 (by omega) (by omega) (by omega)
  have h2 := isFingerOpen_eq_spec lm 12 9 1.12 (by omega) (by omega)
    (by omega)
  have h3 := isFingerOpen_eq_spec lm 16 13 1.12 (by omega) (by omega)
    (by omega)
  have h4 := isFingerOpen_eq_spec lm 20 17 1.12 (by omega) (by omega)
    (by omega)
  have h5 := isFingerOpen_eq_spec lm 4 2 1.08 (by omega) (by omega)
    (by omega)
  have heq : detectGesture lm = some (classifySpec lm) := by
    unfold detectGesture classifySpec
    rw [h1, h2, h3, h4, h5]
    cases fingerOpenD lm 8 5 1.10 <;> cases fingerOpenD lm 12 9 1.12 <;>
      cases fingerOpenD lm 16 13 1.12 <;> cases fingerOpenD lm 20 17 1.12 <;>
      cases fingerOpenD lm 4 2 1.08 <;> rfl
  refine ⟨heq, ?_⟩
  rw [heq]
  unfold classifySpec
  dsimp only
  split_ifs <;> decide

/-- Witness for C6 on the all-origin 21-point set. -/
theorem gesture_decision_order_witness :
    21 ≤ lm21.length ∧
    (detectGesture lm21 = some (classifySpec lm21) ∧
      detectGesture lm21 ≠ some Gesture.IDLE) :=
  ⟨by decide, gesture_decision_order lm21 (by decide)⟩

/-- The exponential-smoothing coefficient derived from a positive cutoff at
a positive rate always lies in `(0, 1]`. -/
theorem alphaOf_pos_le_one (piQ fr c : ℚ) (hpi : 0 < piQ) (hf : 0 < fr)
    (hc : 0 < c) : 0 < alphaOf piQ fr c ∧ alphaOf piQ fr c ≤ 1 := by
  unfold alphaOf
  have hq : 0 < 1 / (2 * piQ * c) / (1 / fr) := by positivity
  constructor
  · positivity
  · rw [div_le_one (by linarith)]
    linarith

/-- One low-pass step with a coefficient in `[0, 1]` maps a clamped input
and an in-range state to an in-range output (a convex combination). -/
theorem lowpass_bounded (g : LowPassFilter) (v : ℚ)
    (ha0 : 0 ≤ g.alpha) (ha1 : g.alpha ≤ 1) (hg : g.InRange)
    (hv1 : -1 ≤ v) (hv2 : v ≤ 1) :
    (-1 ≤ (g.filter v).1 ∧ (g.filter v).1 ≤ 1) ∧ (g.filter v).2.InRange := by
  unfold LowPassFilter.filter LowPassFilter.InRange
  by_cases hi : g.initialized
  · obtain ⟨hs1, hs2⟩ := hg hi
    have k1 : 0 ≤ g.alpha * (v + 1) := mul_nonneg ha0 (by linarith)
    have k2 : 0 ≤ (1 - g.alpha) * (g.s + 1) :=
      mul_nonneg (by linarith) (by linarith)
    have k3 : 0 ≤ g.alpha * (1 - v) := mul_nonneg ha0 (by linarith)
    have k4 : 0 ≤ (1 - g.alpha) * (1 - g.s) :=
      mul_nonneg (by linarith) (by linarith)
    simp only [hi, if_true]
    exact ⟨⟨by nlinarith, by nlinarith⟩,
      fun _ => ⟨by nlinarith, by nlinarith⟩⟩
  · simp only [hi]
    exact ⟨⟨hv1, hv2⟩, fun _ => ⟨hv1, hv2⟩⟩

/-- The position stage assembled inside `OneEuroFilter.filter` — whatever
rate estimate and smoothed derivative the call computed — keeps a clamped
input in range. -/
theorem oneEuroCore (piQ FR ED mc be v : ℚ) (ini : Bool) (s : ℚ)
    (hpi : 0 < piQ) (hFR : 0 < FR) (hmc : 0 < mc) (hbe : 0 ≤ be)
    (hs : ini = true → -1 ≤ s ∧ s ≤ 1) (hv1 : -1 ≤ v) (hv2 : v ≤ 1) :
    (-1 ≤ (LowPassFilter.filter ⟨alphaOf piQ FR (mc + be * |ED|), ini, s⟩
        v).1 ∧
      (LowPassFilter.filter ⟨alphaOf piQ FR (mc + be * |ED|), ini, s⟩
        v).1 ≤ 1) ∧
    (LowPassFilter.filter ⟨alphaOf piQ FR (mc + be * |ED|), ini, s⟩
        v).2.InRange := by
  have hc : 0 < mc + be * |ED| := by positivity
  obtain ⟨ha0, ha1⟩ := alphaOf_pos_le_one piQ FR _ hpi hFR hc
  exact lowpass_bounded _ v (le_of_lt ha0) ha1 hs hv1 hv2

/-- A `filter` call with a clamped input preserves the filter invariant and
produces an output in the clamp interval. -/
theorem oneEuro_filter_good (piQ : ℚ) (f : OneEuroFilter) (v t : ℚ)
    (hpi : 0 < piQ) (hf : f.Good) (hv1 : -1 ≤ v) (hv2 : v ≤ 1) :
    (-1 ≤ (OneEuroFilter.filter piQ f v t).1 ∧
      (OneEuroFilter.filter piQ f v t).1 ≤ 1) ∧
    (OneEuroFilter.filter piQ f v t).2.Good := by
  obtain ⟨hfr, hmc, hbe, hx⟩ := hf
  have key : ∀ FR : ℚ, 0 < FR → ∀ ED : ℚ,
      (-1 ≤ (LowPassFilter.filter
          ⟨alphaOf piQ FR (f.minCutoff + f.beta * |ED|),
           f.x.initialized, f.x.s⟩ v).1 ∧
        (LowPassFilter.filter
          ⟨alphaOf piQ FR (f.minCutoff + f.beta * |ED|),
           f.x.initialized, f.x.s⟩ v).1 ≤ 1) ∧
      (LowPassFilter.filter
          ⟨alphaOf piQ FR (f.minCutoff + f.beta * |ED|),
           f.x.initialized, f.x.s⟩ v).2.InRange :=
    fun FR hFR ED => oneEuroCore piQ FR ED f.minCutoff f.beta v
      f.x.initialized f.x.s hpi hFR hmc hbe hx hv1 hv2
  simp only [OneEuroFilter.filter]
  rcases hl : f.lastTime with _ | t0
  · simp only
    exact ⟨(key _ hfr _).1, hfr, hmc, hbe, (key _ hfr _).2⟩
  · simp only
    by_cases hdt : 0 < (t - t0) / 1000
    · rw [if_pos hdt]
      have hp : 0 < 1 / ((t - t0) / 1000) := one_div_pos.mpr hdt
      exact ⟨(key _ hp _).1, hp, hmc, hbe, (key _ hp _).2⟩
    · rw [if_neg hdt]
      exact ⟨(key _ hfr _).1, hfr, hmc, hbe, (key _ hfr _).2⟩

/-- The clamp `Math.max(-1, Math.min(1, _))` lands in `[-1, 1]`. -/
theorem clamp_bounds (z : ℚ) :
    -1 ≤ max (-1) (min 1 z) ∧ max (-1) (min 1 z) ≤ 1 :=
  ⟨le_max_left _ _, max_le (by norm_num) (min_le_left _ _)⟩

/-- One `processResults` call preserves the tracker invariant. -/
theorem processResults_good (piQ : ℚ) (tr : Tracker) (r : HandResults)
    (t : ℚ) (tr' : Tracker) (hpi : 0 < piQ) (hg : tr.Good)
    (h : tr.processResults piQ r t = some tr') : tr'.Good := by
  rcases hr : r.multiHandLandmarks with _ | ⟨lm, rest⟩
  · rw [processResults_noHand piQ tr r t hr] at h
    obtain rfl := Option.some.inj h
    unfold noHandStep
    dsimp only
    split_ifs with hl
    · refine ⟨hg.1, hg.2.1, ?_⟩
      intro hdet
      simp at hdet
    · exact ⟨hg.1, hg.2.1, hg.2.2⟩
  · rcases e8 : lm.get? 8 with _ | p8
    · unfold Tracker.processResults at h
      rw [hr] at h
      rcases e7 : lm.get? 7 with _ | p7 <;> simp only [e8, e7] at h <;>
        cases h
    · rcases e7 : lm.get? 7 with _ | p7
      · unfold Tracker.processResults at h
        rw [hr] at h
        simp only [e8, e7] at h
        cases h
      · rcases eg : detectGesture lm with _ | raw
        · unfold Tracker.processResults at h
          rw [hr] at h
          simp only [e8, e7, eg] at h
          cases h
        · rw [processResults_hand piQ tr r t lm rest p8 p7 raw hr e8 e7 eg]
            at h
          obtain rfl := Option.some.inj h
          have hXcall := oneEuro_filter_good piQ tr.filterX
            (max (-1) (min 1 ((1 - (p8.x * 0.88 + p7.x * 0.12)) * 2 - 1))) t
            hpi hg.1 (clamp_bounds _).1 (clamp_bounds _).2
          have hYcall := oneEuro_filter_good piQ tr.filterY
            (max (-1) (min 1 (-((p8.y * 0.88 + p7.y * 0.12) * 2 - 1)))) t
            hpi hg.2.1 (clamp_bounds _).1 (clamp_bounds _).2
          exact ⟨hXcall.2, hYcall.2,
            fun _ => ⟨hXcall.1.1, hXcall.1.2, hYcall.1.1, hYcall.1.2⟩⟩

/-- Every run of `processResults` calls from the constructed tracker keeps
the invariant. -/
theorem processTrace_good (piQ : ℚ) (hpi : 0 < piQ) :
    ∀ (inputs : List (HandResults × ℚ)) (tr : Tracker), tr.Good →
      ∀ tr', processTrace piQ tr inputs = some tr' → tr'.Good := by
  intro inputs
  induction inputs with
  | nil =>
      intro tr htr tr' h
      obtain rfl := Option.some.inj h
      exact htr
  | cons p rest ih =>
      intro tr htr tr' h
      rcases p with ⟨r, t⟩
      unfold processTrace at h
      rcases e : tr.processResults piQ r t with _ | tr1 <;> rw [e] at h
      · cases h
      · exact ih tr1 (processResults_good piQ tr r t tr1 hpi htr e) tr' h

theorem initTracker_good (piQ : ℚ) : (initTracker piQ).Good := by
  refine ⟨⟨by norm_num [initTracker, mkOneEuro],
      by norm_num [initTracker, mkOneEuro],
      by norm_num [initTracker, mkOneEuro], ?_⟩,
    ⟨by norm_num [initTracker, mkOneEuro],
      by norm_num [initTracker, mkOneEuro],
      by norm_num [initTracker, mkOneEuro], ?_⟩, ?_⟩ <;>
    · intro h
      simp [initTracker, mkOneEuro] at h

/-- C10: whatever (possibly crashing) input sequence MediaPipe delivers,
whenever the tracker publishes `detected = true` the published coordinates
lie in `[-1, 1]`: the raw pointer is clamped before filtering, every
smoothing coefficient the One Euro filter derives is in `(0, 1]`, and each
smoothed output is a convex combination of clamped values. -/
theorem tracked_xy_bounded (piQ : ℚ) (inputs : List (HandResults × ℚ))
    (hpi : 0 < piQ) :
    XYBounded (processTrace piQ (initTracker piQ) inputs) := by
  rcases e : processTrace piQ (initTracker piQ) inputs with _ | tr
  · exact trivial
  · intro hdet
    exact (processTrace_good piQ hpi inputs (initTracker piQ)
      (initTracker_good piQ) tr e).2.2 hdet

/-- Witness for C10 on a detected frame followed by a dropout. -/
theorem tracked_xy_bounded_witness :
    0 < (1 : ℚ) ∧
    XYBounded (processTrace 1 (initTracker 1)
      [(hand21, 0), (noHands, 1)]) :=
  ⟨by decide, tracked_xy_bounded 1 [(hand21, 0), (noHands, 1)] (by decide)⟩

theorem vec3_add_def (a b : Vec3) : a + b = ⟨a.x + b.x, a.y + b.y, a.z + b.z⟩ :=
  rfl

theorem vec3_sub_def (a b : Vec3) : a - b = ⟨a.x - b.x, a.y - b.y, a.z - b.z⟩ :=
  rfl

/-- A point at spherical coordinates of radius `r` about `tp` lies at
distance exactly `r` from `tp`. -/
theorem setFromSpherical_dist (r phi theta : ℝ) (hr : 0 ≤ r) (tp : Vec3) :
    Vec3.dist (Vec3.setFromSphericalCoords r phi theta + tp) tp = r := by
  unfold Vec3.setFromSphericalCoords
  rw [vec3_add_def]
  unfold Vec3.dist
  dsimp only
  have key : (r * Real.sin phi * Real.sin theta + tp.x - tp.x) ^ 2 +
      (r * Real.cos phi + tp.y - tp.y) ^ 2 +
      (r * Real.sin phi * Real.cos theta + tp.z - tp.z) ^ 2 = r ^ 2 := by
    linear_combination (r ^ 2 * (Real.sin phi) ^ 2) *
        Real.sin_sq_add_cos_sq theta +
      r ^ 2 * Real.sin_sq_add_cos_sq phi
  rw [key, Real.sqrt_sq hr]

/-- C7: in SPHERE mode every agent's formation target — a deterministic
function of the agent identity, the agent count, the time and the Target
Point — lies at distance exactly `2.0` from the Target Point (so within
any tolerance `ε ≥ 0`), for every identity, count and time. -/
theorem sphere_formation_radius (swordCount : ℕ) (u : SwordData)
    (time : ℝ) (tp : Vec3) :
    Vec3.dist (swordTargetPos "SPHERE" swordCount u time tp) tp = 2 := by
  unfold swordTargetPos
  rw [if_neg (by decide : ¬("SPHERE" = "STREAM"))]
  rw [if_pos rfl]
  dsimp only
  rw [setFromSpherical_dist 2.0 _ _ (by norm_num) tp]
  norm_num

/-- C8 (amended): for any mode string outside the four known formations
*and outside the property names inherited from `Object.prototype`*, the
per-frame step uses IDLE's target formula, IDLE's spring and damping
constants and IDLE's color — the whole per-agent step coincides with the
IDLE step and never fails; moreover the *target formula* falls back to
IDLE's for every non-formation string whatsoever, inherited names
included, since that dispatch compares strings with `===` and performs no
object lookup.  (For the inherited names themselves the `??`/`||`
fallbacks do not trigger — see the counterexample.) -/
theorem unknown_mode_idle_fallback (mode mode2 : String) (count : ℕ)
    (u : SwordData) (time : ℝ) (tp : Vec3) (s : SwordState)
    (h : ¬(mode = "IDLE" ∨ mode = "STREAM" ∨ mode = "SPHERE" ∨
           mode = "SHIELD"))
    (hp : mode ∉ protoKeys)
    (h2 : ¬(mode2 = "STREAM" ∨ mode2 = "SPHERE" ∨ mode2 = "SHIELD")) :
    swordTargetPos mode2 count u time tp
        = swordTargetPos "IDLE" count u time tp ∧
    kBaseVal mode = kBaseVal "IDLE" ∧
    dampVal mode = dampVal "IDLE" ∧
    colorVal mode = colorVal "IDLE" ∧
    stepSword mode count u time tp s = stepSword "IDLE" count u time tp s := by
  push_neg at h h2
  obtain ⟨hi, hst, hsp, hsh⟩ := h
  obtain ⟨g2, g3, g4⟩ := h2
  have httarget : ∀ m : String, m ≠ "STREAM" → m ≠ "SPHERE" →
      m ≠ "SHIELD" →
      swordTargetPos m count u time tp
        = swordTargetPos "IDLE" count u time tp := by
    intro m m1 m2 m3
    unfold swordTargetPos
    rw [if_neg m1, if_neg m2, if_neg m3,
        if_neg (by decide : ¬("IDLE" = "STREAM")),
        if_neg (by decide : ¬("IDLE" = "SPHERE")),
        if_neg (by decide : ¬("IDLE" = "SHIELD"))]
  have hkn : modeKOpt mode = none := by
    unfold modeKOpt
    split <;> simp_all
  have hdn : modeDampOpt mode = none := by
    unfold modeDampOpt
    split <;> simp_all
  have hcn : colorsOpt mode = none := by
    unfold colorsOpt
    split <;> simp_all
  have hk : kBaseVal mode = kBaseVal "IDLE" := by
    unfold kBaseVal objLookup
    rw [hkn, if_neg hp]
    rfl
  have hd : dampVal mode = dampVal "IDLE" := by
    unfold dampVal objLookup
    rw [hdn, if_neg hp]
    rfl
  have hc : colorVal mode = colorVal "IDLE" := by
    unfold colorVal objLookup
    rw [hcn, if_neg hp]
    rfl
  refine ⟨httarget mode2 g2 g3 g4, hk, hd, hc, ?_⟩
  unfold stepSword
  rw [httarget mode hst hsp hsh, hk, hd, hc]

/-- Witness for C8 at the plain unknown mode "CHAOS", with the
target-formula part additionally exercised at the inherited name
"constructor". -/
theorem unknown_mode_idle_fallback_witness :
    ¬("CHAOS" = "IDLE" ∨ "CHAOS" = "STREAM" ∨ "CHAOS" = "SPHERE" ∨
      "CHAOS" = "SHIELD") ∧
    "CHAOS" ∉ protoKeys ∧
    ¬("constructor" = "STREAM" ∨ "constructor" = "SPHERE" ∨
      "constructor" = "SHIELD") ∧
    (swordTargetPos "constructor" 80 ⟨0, 0, ⟨0, 0, 0⟩, 0⟩ 0 ⟨0, 0, 0⟩
        = swordTargetPos "IDLE" 80 ⟨0, 0, ⟨0, 0, 0⟩, 0⟩ 0 ⟨0, 0, 0⟩ ∧
      kBaseVal "CHAOS" = kBaseVal "IDLE" ∧
      dampVal "CHAOS" = dampVal "IDLE" ∧
      colorVal "CHAOS" = colorVal "IDLE" ∧
      stepSword "CHAOS" 80 ⟨0, 0, ⟨0, 0, 0⟩, 0⟩ 0 ⟨0, 0, 0⟩
          ⟨⟨0, 0, 0⟩, ⟨0, 0, 0⟩, ⟨0, 0, 0⟩⟩
        = stepSword "IDLE" 80 ⟨0, 0, ⟨0, 0, 0⟩, 0⟩ 0 ⟨0, 0, 0⟩
          ⟨⟨0, 0, 0⟩, ⟨0, 0, 0⟩, ⟨0, 0, 0⟩⟩) :=
  ⟨by decide, by decide, by decide,
    unknown_mode_idle_fallback "CHAOS" "constructor" 80
      ⟨0, 0, ⟨0, 0, 0⟩, 0⟩ 0 ⟨0, 0, 0⟩ ⟨⟨0, 0, 0⟩, ⟨0, 0, 0⟩, ⟨0, 0, 0⟩⟩
      (by decide) (by decide) (by decide)⟩

/-- C8 is false as frozen: the mode string "constructor" lies outside
{IDLE, STREAM, SPHERE, SHIELD}, yet `modeK["constructor"]`,
`modeDamp["constructor"]` and `colors["constructor"]` find the inherited
`Object.prototype.constructor`, which is neither nullish nor falsy, so
`?? modeK.IDLE` and `|| colors.IDLE` do not fall back: the spring
constant, damping factor and blend target are that inherited function and
the agent's velocity, position and color become NaN (`none` in the model)
instead of using IDLE's constants and color — while the IDLE step itself
stays finite. -/
theorem unknown_mode_proto_key_counterexample :
    ¬("constructor" = "IDLE" ∨ "constructor" = "STREAM" ∨
      "constructor" = "SPHERE" ∨ "constructor" = "SHIELD") ∧
    "constructor" ∈ protoKeys ∧
    kBaseVal "constructor" = none ∧
    dampVal "constructor" = none ∧
    colorVal "constructor" = none ∧
    (stepSword "constructor" 80 ⟨0, 0, ⟨0, 0, 0⟩, 0⟩ 0 ⟨0, 0, 0⟩
        ⟨⟨0, 0, 0⟩, ⟨0, 0, 0⟩, ⟨0, 0, 0⟩⟩).motion = none ∧
    (stepSword "constructor" 80 ⟨0, 0, ⟨0, 0, 0⟩, 0⟩ 0 ⟨0, 0, 0⟩
        ⟨⟨0, 0, 0⟩, ⟨0, 0, 0⟩, ⟨0, 0, 0⟩⟩).color = none ∧
    (stepSword "IDLE" 80 ⟨0, 0, ⟨0, 0, 0⟩, 0⟩ 0 ⟨0, 0, 0⟩
        ⟨⟨0, 0, 0⟩, ⟨0, 0, 0⟩, ⟨0, 0, 0⟩⟩).motion.isSome = true ∧
    (stepSword "IDLE" 80 ⟨0, 0, ⟨0, 0, 0⟩, 0⟩ 0 ⟨0, 0, 0⟩
        ⟨⟨0, 0, 0⟩, ⟨0, 0, 0⟩, ⟨0, 0, 0⟩⟩).color.isSome = true :=
  ⟨by decide, by decide, rfl, rfl, rfl, rfl, rfl, rfl, rfl⟩

end FlySword
